import Mathlib

/-!
Verification of the SNAP screener calculator
(`policyengine_snapscreener_validation/calculator.py`) and of the
household-derivation step of the validator
(`policyengine_snapscreener_validation/validator.py`).

Embedding conventions:
* Python decimals are modelled as exact rationals, Python integers as `Int`.
* A Python dict keyed by household size is modelled as a function to
  `Option` rationals; an absent key is `none`, and a raised KeyError
  makes the whole computation return `none`.
* The builtin Python `round` with no digit argument rounds half to even
  and returns an integer; it is modelled by `pyround`.
* The external PolicyEngine adapter is an external collaborator; the two
  numbers the validator reads from its result are taken as parameters.
-/

set_option maxRecDepth 8000

namespace SNAPScreener

/-- Mirrors the dataclass SNAPHousehold from calculator.py.  The
dataclass has no validation logic: the generated constructor accepts
any values, so this structure does too. -/
structure SNAPHousehold where
  size : ℤ
  monthly_earned_income : ℚ
  monthly_unearned_income : ℚ
  monthly_rent : ℚ
  monthly_dependent_care : ℚ := 0
  monthly_child_support : ℚ := 0
  monthly_medical_expenses : ℚ := 0
  has_elderly_disabled : Bool := false
  has_utility_expenses : Bool := false
  state : String := "CA"
deriving Repr, DecidableEq

/-- Mirrors STANDARD_DEDUCTIONS in calculator.py: only sizes 1..6 are
tabulated. -/
def STANDARD_DEDUCTIONS (n : ℤ) : Option ℚ :=
  if n = 1 then some 198 else if n = 2 then some 198 else if n = 3 then some 198
  else if n = 4 then some 217 else if n = 5 then some 255 else if n = 6 then some 294
  else none

/-- Mirrors MAX_ALLOTMENTS in calculator.py (sizes 1..8). -/
def MAX_ALLOTMENTS (n : ℤ) : Option ℚ :=
  if n = 1 then some 292 else if n = 2 then some 536 else if n = 3 then some 768
  else if n = 4 then some 975 else if n = 5 then some 1158 else if n = 6 then some 1390
  else if n = 7 then some 1536 else if n = 8 then some 1756
  else none

/-- Mirrors GROSS_INCOME_LIMITS in calculator.py (sizes 1..8). -/
def GROSS_INCOME_LIMITS (n : ℤ) : Option ℚ :=
  if n = 1 then some 1632 else if n = 2 then some 2198 else if n = 3 then some 2765
  else if n = 4 then some 3331 else if n = 5 then some 3897 else if n = 6 then some 4463
  else if n = 7 then some 5030 else if n = 8 then some 5596
  else none

/-- Mirrors NET_INCOME_LIMITS in calculator.py (sizes 1..8). -/
def NET_INCOME_LIMITS (n : ℤ) : Option ℚ :=
  if n = 1 then some 1255 else if n = 2 then some 1691 else if n = 3 then some 2127
  else if n = 4 then some 2563 else if n = 5 then some 2998 else if n = 6 then some 3434
  else if n = 7 then some 3870 else if n = 8 then some 4305
  else none

/-- Mirrors EXCESS_SHELTER_CAP in calculator.py. -/
def EXCESS_SHELTER_CAP : ℚ := 624

/-- Mirrors EARNED_INCOME_DEDUCTION_RATE in calculator.py (0.20). -/
def EARNED_INCOME_DEDUCTION_RATE : ℚ := 0.20

/-- Mirrors SNAPScreenerCalculator._get_limit.  A present key is
returned directly; a size above 8 extrapolates from the entries at
sizes 8 and 7 (reading the dict at key 8 raises KeyError when that key
is absent, modelled by `none`); any other size falls through to 0. -/
def getLimit (household_size : ℤ) (limits : ℤ → Option ℚ) : Option ℚ :=
  match limits household_size with
  | some v => some v
  | none =>
    if household_size > 8 then
      match limits 8, limits 7 with
      | some base, some per7 => some (base + ((household_size - 8 : ℤ) : ℚ) * (base - per7))
      | _, _ => none
    else
      some 0

/-- Python builtin round with no digit argument: round half to even,
returning an integer.  The comparison of the fractional part with one
half is phrased as a comparison of 2q with 2 floor q + 1. -/
def pyround (q : ℚ) : ℤ :=
  if 2 * q < 2 * (⌊q⌋ : ℚ) + 1 then ⌊q⌋
  else if 2 * (⌊q⌋ : ℚ) + 1 < 2 * q then ⌊q⌋ + 1
  else if ⌊q⌋ % 2 = 0 then ⌊q⌋ else ⌊q⌋ + 1

/-- Step 1 of calculate: gross income = earned + unearned. -/
def grossIncome (h : SNAPHousehold) : ℚ :=
  h.monthly_earned_income + h.monthly_unearned_income

/-- Step 3 of calculate: earned income deduction = 20 percent of
monthly earned income. -/
def earnedIncomeDeduction (h : SNAPHousehold) : ℚ :=
  h.monthly_earned_income * EARNED_INCOME_DEDUCTION_RATE

/-- Step 3 of calculate: medical deduction, only for elderly or
disabled households with medical expenses above 35. -/
def medicalDeduction (h : SNAPHousehold) : ℚ :=
  if h.has_elderly_disabled ∧ h.monthly_medical_expenses > 35 then
    h.monthly_medical_expenses - 35
  else 0

/-- Step 4 of calculate: adjusted income, given the looked-up standard
deduction sd.  May go negative; the code does not floor it. -/
def adjustedIncome (h : SNAPHousehold) (sd : ℚ) : ℚ :=
  grossIncome h - sd - earnedIncomeDeduction h
    - h.monthly_dependent_care - h.monthly_child_support - medicalDeduction h

/-- Step 5 of calculate: total shelter costs = rent, plus the 500
standard utility allowance when the utility flag is set. -/
def totalShelterCost (h : SNAPHousehold) : ℚ :=
  h.monthly_rent + (if h.has_utility_expenses then (500 : ℚ) else 0)

/-- Step 5 of calculate: excess shelter deduction, capped at
EXCESS_SHELTER_CAP unless the household has an elderly or disabled
member. -/
def excessShelter (h : SNAPHousehold) (sd : ℚ) : ℚ :=
  let raw := max 0 (totalShelterCost h - adjustedIncome h sd / 2)
  if ¬ h.has_elderly_disabled then min raw EXCESS_SHELTER_CAP else raw

/-- Step 6 of calculate: net income = adjusted income minus the excess
shelter deduction. -/
def netIncome (h : SNAPHousehold) (sd : ℚ) : ℚ :=
  adjustedIncome h sd - excessShelter h sd

/-- Step 8 of calculate: expected contribution = max(0, net income
times 0.30). -/
def expectedContribution (h : SNAPHousehold) (sd : ℚ) : ℚ :=
  max 0 (netIncome h sd * 0.30)

/-- Step 8 of calculate: benefit = max(0, max allotment minus expected
contribution), rounded to the nearest dollar by the Python builtin
round. -/
def benefitAmount (h : SNAPHousehold) (sd ma : ℚ) : ℤ :=
  pyround (max 0 (ma - expectedContribution h sd))

/-- The dictionary returned by SNAPScreenerCalculator.calculate. -/
structure Report where
  gross_income : ℚ
  gross_income_limit : ℚ
  passes_gross_test : Bool
  standard_deduction : ℚ
  earned_income_deduction : ℚ
  dependent_care_deduction : ℚ
  child_support_deduction : ℚ
  medical_deduction : ℚ
  adjusted_income : ℚ
  excess_shelter_deduction : ℚ
  net_income : ℚ
  net_income_limit : ℚ
  passes_net_test : Bool
  max_allotment : ℚ
  expected_contribution : ℚ
  benefit_amount : ℤ
  is_eligible : Bool
deriving Repr, DecidableEq

/-- The body of SNAPScreenerCalculator.calculate once the four table
lookups gl (gross limit), sd (standard deduction), nl (net limit) and
ma (max allotment) have succeeded; each field is the corresponding
pipeline step from the source. -/
def calculateCore (h : SNAPHousehold) (gl sd nl ma : ℚ) : Report :=
  { gross_income := grossIncome h
    gross_income_limit := gl
    passes_gross_test := decide (grossIncome h ≤ gl)
    standard_deduction := sd
    earned_income_deduction := earnedIncomeDeduction h
    dependent_care_deduction := h.monthly_dependent_care
    child_support_deduction := h.monthly_child_support
    medical_deduction := medicalDeduction h
    adjusted_income := adjustedIncome h sd
    excess_shelter_deduction := excessShelter h sd
    net_income := netIncome h sd
    net_income_limit := nl
    passes_net_test := decide (netIncome h sd ≤ nl)
    max_allotment := ma
    expected_contribution := expectedContribution h sd
    benefit_amount := benefitAmount h sd ma
    is_eligible := decide (grossIncome h ≤ gl) && decide (netIncome h sd ≤ nl)
      && decide (0 < benefitAmount h sd ma) }

/-- SNAPScreenerCalculator.calculate: performs the four table lookups
(in the order the source first uses them) and assembles the report; a
KeyError raised by a lookup is modelled by `none`. -/
def calculate (h : SNAPHousehold) : Option Report := do
  let gl ← getLimit h.size GROSS_INCOME_LIMITS
  let sd ← getLimit h.size STANDARD_DEDUCTIONS
  let nl ← getLimit h.size NET_INCOME_LIMITS
  let ma ← getLimit h.size MAX_ALLOTMENTS
  pure (calculateCore h gl sd nl ma)

/-- The part of the external PolicyEngine adapter result that
SNAPValidator.validate_single reads: the annual TANF benefit and the
monthly SNAP benefit.  The adapter itself is an external collaborator
(it invokes the policyengine package), so its output is a parameter of
the embedding. -/
structure PEResult where
  tanf_benefit : ℚ
  benefit_amount : ℚ
deriving Repr, DecidableEq

/-- The household passed to the screener engine by
SNAPValidator.validate_single: when TANF is included and the external
engine reported a positive TANF amount, dataclasses.replace derives a
copy with the monthly equivalent (annual divided by 12) added to
unearned income; otherwise the original household is used. -/
def householdForScreener (household : SNAPHousehold) (include_tanf : Bool)
    (tanf_benefit : ℚ) : SNAPHousehold :=
  if include_tanf ∧ tanf_benefit > 0 then
    { household with monthly_unearned_income :=
        household.monthly_unearned_income + tanf_benefit / 12 }
  else household

/-- The comparison dictionary built by SNAPValidator.validate_single. -/
structure Comparison where
  household_size : ℤ
  monthly_income : ℚ
  monthly_rent : ℚ
  screener_benefit : ℤ
  policyengine_benefit : ℚ
  difference : ℚ
  tanf_included : Bool
  tanf_amount : ℚ
  screener_details : Report
  policyengine_details : PEResult
deriving Repr, DecidableEq

/-- SNAPValidator.validate_single on the non-scraper path, with the
external engine result passed in: derive the screener household, run
the screener calculator on it, and assemble the comparison.  The
screener KeyError (size at least 9) propagates as `none`. -/
def validate_single (household : SNAPHousehold) (pe_result : PEResult)
    (include_tanf : Bool) : Option Comparison :=
  let household_for_screener :=
    householdForScreener household include_tanf pe_result.tanf_benefit
  (calculate household_for_screener).map fun screener_result =>
    { household_size := household.size
      monthly_income := household.monthly_earned_income
      monthly_rent := household.monthly_rent
      screener_benefit := screener_result.benefit_amount
      policyengine_benefit := pe_result.benefit_amount
      difference := pe_result.benefit_amount - (screener_result.benefit_amount : ℚ)
      tanf_included := include_tanf && decide (pe_result.tanf_benefit > 0)
      tanf_amount := if pe_result.tanf_benefit ≠ 0 then pe_result.tanf_benefit / 12 else 0
      screener_details := screener_result
      policyengine_details := pe_result }

/-- The household of end-to-end scenario A (also
tests/test_calculator.py test_basic_calculation). -/
def scenarioA : SNAPHousehold :=
  { size := 4
    monthly_earned_income := 2500
    monthly_unearned_income := 0
    monthly_rent := 1500 }

/-- The report calculate produces for scenario A. -/
def reportA : Report :=
  { gross_income := 2500
    gross_income_limit := 3331
    passes_gross_test := true
    standard_deduction := 217
    earned_income_deduction := 500
    dependent_care_deduction := 0
    child_support_deduction := 0
    medical_deduction := 0
    adjusted_income := 1783
    excess_shelter_deduction := 608.5
    net_income := 1174.5
    net_income_limit := 2563
    passes_net_test := true
    max_allotment := 975
    expected_contribution := 352.35
    benefit_amount := 623
    is_eligible := true }

/-- The report calculate produces for scenario A with earned income
raised to 3000. -/
def reportA3000 : Report :=
  { gross_income := 3000
    gross_income_limit := 3331
    passes_gross_test := true
    standard_deduction := 217
    earned_income_deduction := 600
    dependent_care_deduction := 0
    child_support_deduction := 0
    medical_deduction := 0
    adjusted_income := 2183
    excess_shelter_deduction := 408.5
    net_income := 1774.5
    net_income_limit := 2563
    passes_net_test := true
    max_allotment := 975
    expected_contribution := 532.35
    benefit_amount := 443
    is_eligible := true }

/-- Scenario A with the utility expense flag set. -/
def scenarioAUtility : SNAPHousehold :=
  { size := 4
    monthly_earned_income := 2500
    monthly_unearned_income := 0
    monthly_rent := 1500
    has_utility_expenses := true }

/-- The report calculate produces for scenario A with the utility
expense flag set: shelter cost 2000, excess shelter capped at 624. -/
def reportAUtility : Report :=
  { gross_income := 2500
    gross_income_limit := 3331
    passes_gross_test := true
    standard_deduction := 217
    earned_income_deduction := 500
    dependent_care_deduction := 0
    child_support_deduction := 0
    medical_deduction := 0
    adjusted_income := 1783
    excess_shelter_deduction := 624
    net_income := 1159
    net_income_limit := 2563
    passes_net_test := true
    max_allotment := 975
    expected_contribution := 347.7
    benefit_amount := 627
    is_eligible := true }

/-- A household of size 7 (standard deduction table has no entry). -/
def scenarioSize7 : SNAPHousehold :=
  { size := 7
    monthly_earned_income := 1000
    monthly_unearned_income := 0
    monthly_rent := 800 }

/-- A household of size 8 (standard deduction table has no entry). -/
def scenarioSize8 : SNAPHousehold :=
  { size := 8
    monthly_earned_income := 1000
    monthly_unearned_income := 0
    monthly_rent := 800 }

/-- A household of size 9 (forces extrapolation in every table). -/
def scenarioSize9 : SNAPHousehold :=
  { size := 9
    monthly_earned_income := 1000
    monthly_unearned_income := 0
    monthly_rent := 800 }

/-- A household that the spec calls invalid: size 0 and negative
earned income, unearned income and rent.  The dataclass accepts it. -/
def invalidHousehold : SNAPHousehold :=
  { size := 0
    monthly_earned_income := -100
    monthly_unearned_income := -5
    monthly_rent := -50 }

/-- The report calculate produces for invalidHousehold: every table
lookup falls through to 0 and the negative amounts flow through the
formulas unclamped. -/
def invalidReport : Report :=
  { gross_income := -105
    gross_income_limit := 0
    passes_gross_test := true
    standard_deduction := 0
    earned_income_deduction := -20
    dependent_care_deduction := 0
    child_support_deduction := 0
    medical_deduction := 0
    adjusted_income := -85
    excess_shelter_deduction := 0
    net_income := -85
    net_income_limit := 0
    passes_net_test := true
    max_allotment := 0
    expected_contribution := 0
    benefit_amount := 0
    is_eligible := false }

section Lemmas

lemma STANDARD_DEDUCTIONS_none {s : ℤ} (hs : 8 < s) : STANDARD_DEDUCTIONS s = none := by
  unfold STANDARD_DEDUCTIONS
  split_ifs <;> first | rfl | (exfalso; omega)

lemma MAX_ALLOTMENTS_none {s : ℤ} (hs : 8 < s) : MAX_ALLOTMENTS s = none := by
  unfold MAX_ALLOTMENTS
  split_ifs <;> first | rfl | (exfalso; omega)

lemma GROSS_INCOME_LIMITS_none {s : ℤ} (hs : 8 < s) : GROSS_INCOME_LIMITS s = none := by
  unfold GROSS_INCOME_LIMITS
  split_ifs <;> first | rfl | (exfalso; omega)

lemma NET_INCOME_LIMITS_none {s : ℤ} (hs : 8 < s) : NET_INCOME_LIMITS s = none := by
  unfold NET_INCOME_LIMITS
  split_ifs <;> first | rfl | (exfalso; omega)

lemma getLimit_MAX_ALLOTMENTS {s : ℤ} (hs : 8 < s) :
    getLimit s MAX_ALLOTMENTS = some (1756 + ((s - 8 : ℤ) : ℚ) * (1756 - 1536)) := by
  simp only [getLimit, MAX_ALLOTMENTS_none hs]
  rw [if_pos hs]
  norm_num [MAX_ALLOTMENTS]

lemma getLimit_GROSS_INCOME_LIMITS {s : ℤ} (hs : 8 < s) :
    getLimit s GROSS_INCOME_LIMITS = some (5596 + ((s - 8 : ℤ) : ℚ) * (5596 - 5030)) := by
  simp only [getLimit, GROSS_INCOME_LIMITS_none hs]
  rw [if_pos hs]
  norm_num [GROSS_INCOME_LIMITS]

lemma getLimit_NET_INCOME_LIMITS {s : ℤ} (hs : 8 < s) :
    getLimit s NET_INCOME_LIMITS = some (4305 + ((s - 8 : ℤ) : ℚ) * (4305 - 3870)) := by
  simp only [getLimit, NET_INCOME_LIMITS_none hs]
  rw [if_pos hs]
  norm_num [NET_INCOME_LIMITS]

lemma getLimit_STANDARD_DEDUCTIONS_none {s : ℤ} (hs : 8 < s) :
    getLimit s STANDARD_DEDUCTIONS = none := by
  simp only [getLimit, STANDARD_DEDUCTIONS_none hs]
  rw [if_pos hs]
  norm_num [STANDARD_DEDUCTIONS]

lemma STANDARD_DEDUCTIONS_none_small {s : ℤ} (hs : s < 1) : STANDARD_DEDUCTIONS s = none := by
  unfold STANDARD_DEDUCTIONS
  split_ifs <;> first | rfl | (exfalso; omega)

lemma MAX_ALLOTMENTS_none_small {s : ℤ} (hs : s < 1) : MAX_ALLOTMENTS s = none := by
  unfold MAX_ALLOTMENTS
  split_ifs <;> first | rfl | (exfalso; omega)

lemma GROSS_INCOME_LIMITS_none_small {s : ℤ} (hs : s < 1) : GROSS_INCOME_LIMITS s = none := by
  unfold GROSS_INCOME_LIMITS
  split_ifs <;> first | rfl | (exfalso; omega)

lemma NET_INCOME_LIMITS_none_small {s : ℤ} (hs : s < 1) : NET_INCOME_LIMITS s = none := by
  unfold NET_INCOME_LIMITS
  split_ifs <;> first | rfl | (exfalso; omega)

/-- Below the tabulated range the lookup falls through to 0. -/
lemma getLimit_small {s : ℤ} (hs : s < 1) (T : ℤ → Option ℚ) (hT : T s = none) :
    getLimit s T = some 0 := by
  simp only [getLimit, hT]
  rw [if_neg (by omega : ¬ s > 8)]

/-- Inversion principle: a successful run of calculate is a successful
run of the four table lookups followed by calculateCore. -/
lemma calculate_inv (h : SNAPHousehold) (r : Report) (hc : calculate h = some r) :
    ∃ gl sd nl ma,
      getLimit h.size GROSS_INCOME_LIMITS = some gl ∧
      getLimit h.size STANDARD_DEDUCTIONS = some sd ∧
      getLimit h.size NET_INCOME_LIMITS = some nl ∧
      getLimit h.size MAX_ALLOTMENTS = some ma ∧
      r = calculateCore h gl sd nl ma := by
  unfold calculate at hc
  cases hgl : getLimit h.size GROSS_INCOME_LIMITS with
  | none => simp [hgl] at hc
  | some gl =>
    cases hsd : getLimit h.size STANDARD_DEDUCTIONS with
    | none => simp [hgl, hsd] at hc
    | some sd =>
      cases hnl : getLimit h.size NET_INCOME_LIMITS with
      | none => simp [hgl, hsd, hnl] at hc
      | some nl =>
        cases hma : getLimit h.size MAX_ALLOTMENTS with
        | none => simp [hgl, hsd, hnl, hma] at hc
        | some ma =>
          simp only [hgl, hsd, hnl, hma, Option.bind_eq_bind, Option.some_bind,
            Option.pure_def, Option.some.injEq] at hc
          exact ⟨gl, sd, nl, ma, rfl, rfl, rfl, rfl, hc.symm⟩

lemma pyround_le_floor_add_one (q : ℚ) : pyround q ≤ ⌊q⌋ + 1 := by
  unfold pyround
  split_ifs <;> omega

lemma floor_le_pyround (q : ℚ) : ⌊q⌋ ≤ pyround q := by
  unfold pyround
  split_ifs <;> omega

/-- Rounding half to even is monotone. -/
lemma pyround_mono {x y : ℚ} (hxy : x ≤ y) : pyround x ≤ pyround y := by
  have hf : ⌊x⌋ ≤ ⌊y⌋ := Int.floor_mono hxy
  rcases eq_or_lt_of_le hf with heq | hlt
  · unfold pyround
    rw [heq]
    split_ifs <;> first | omega | linarith
  · calc pyround x ≤ ⌊x⌋ + 1 := pyround_le_floor_add_one x
      _ ≤ ⌊y⌋ := by omega
      _ ≤ pyround y := floor_le_pyround y

/-- The excess shelter deduction grows with shelter cost and shrinks
with adjusted income, whatever the elderly flag. -/
lemma excessShelter_le_excessShelter (h h' : SNAPHousehold) (sd sd' : ℚ)
    (hflag : h'.has_elderly_disabled = h.has_elderly_disabled)
    (hS : totalShelterCost h ≤ totalShelterCost h')
    (ha : adjustedIncome h' sd' ≤ adjustedIncome h sd) :
    excessShelter h sd ≤ excessShelter h' sd' := by
  simp only [excessShelter]
  rw [hflag]
  have hraw : max 0 (totalShelterCost h - adjustedIncome h sd / 2)
      ≤ max 0 (totalShelterCost h' - adjustedIncome h' sd' / 2) :=
    max_le_max le_rfl (by linarith)
  split_ifs
  · exact hraw
  · exact min_le_min hraw le_rfl

/-- Net income is monotone in adjusted income when shelter cost and the
elderly flag agree. -/
lemma netIncome_le_netIncome (h h' : SNAPHousehold) (sd sd' : ℚ)
    (hflag : h'.has_elderly_disabled = h.has_elderly_disabled)
    (hS : totalShelterCost h' = totalShelterCost h)
    (ha : adjustedIncome h sd ≤ adjustedIncome h' sd') :
    netIncome h sd ≤ netIncome h' sd' := by
  simp only [netIncome, excessShelter]
  rw [hflag, hS]
  have h1 : max 0 (totalShelterCost h - adjustedIncome h' sd' / 2)
      ≤ max 0 (totalShelterCost h - adjustedIncome h sd / 2) :=
    max_le_max le_rfl (by linarith)
  split_ifs
  · linarith
  · have h2 := min_le_min h1 (le_refl EXCESS_SHELTER_CAP)
    linarith

/-- The rounded benefit amount is antitone in net income. -/
lemma benefitAmount_le_benefitAmount (h h' : SNAPHousehold) (sd sd' ma : ℚ)
    (hn : netIncome h' sd' ≤ netIncome h sd) :
    benefitAmount h sd ma ≤ benefitAmount h' sd' ma := by
  unfold benefitAmount
  apply pyround_mono
  have h1 : max 0 (netIncome h' sd' * 0.30) ≤ max 0 (netIncome h sd * 0.30) :=
    max_le_max le_rfl (mul_le_mul_of_nonneg_right hn (by norm_num))
  simp only [expectedContribution]
  exact max_le_max le_rfl (by linarith)

/-- Adjusted income is monotone in earned income (the 20 percent earned
income deduction never outweighs the income itself). -/
lemma adjustedIncome_mono_earned (h : SNAPHousehold) (sd : ℚ) {e e' : ℚ} (he : e ≤ e') :
    adjustedIncome { h with monthly_earned_income := e } sd
      ≤ adjustedIncome { h with monthly_earned_income := e' } sd := by
  have hmed : medicalDeduction { h with monthly_earned_income := e' }
      = medicalDeduction { h with monthly_earned_income := e } := rfl
  simp only [adjustedIncome, grossIncome, earnedIncomeDeduction,
    EARNED_INCOME_DEDUCTION_RATE, hmed, show (0.20 : ℚ) = 1 / 5 from by norm_num]
  linarith

end Lemmas

/-- C1: for the size 4 household with earned income 2500, no unearned
income, rent 1500 and all flags false, calculate returns the report
with gross income 2500 (test passed), standard deduction 217, earned
income deduction 500, adjusted income 1783, excess shelter deduction
608.5, net income 1174.5 (test passed), expected contribution 352.35,
benefit 623 and eligibility true. -/
theorem scenarioA_report :
    calculate scenarioA = some reportA ∧
    reportA.gross_income = 2500 ∧
    reportA.passes_gross_test = true ∧
    reportA.standard_deduction = 217 ∧
    reportA.earned_income_deduction = 500 ∧
    reportA.adjusted_income = 1783 ∧
    reportA.excess_shelter_deduction = 608.5 ∧
    reportA.net_income = 1174.5 ∧
    reportA.passes_net_test = true ∧
    reportA.expected_contribution = 352.35 ∧
    reportA.benefit_amount = 623 ∧
    reportA.is_eligible = true :=
  ⟨by norm_num [calculate, calculateCore, getLimit, STANDARD_DEDUCTIONS, MAX_ALLOTMENTS,
    GROSS_INCOME_LIMITS, NET_INCOME_LIMITS, grossIncome, earnedIncomeDeduction,
    medicalDeduction, adjustedIncome, totalShelterCost, excessShelter, netIncome,
    expectedContribution, benefitAmount, pyround, EXCESS_SHELTER_CAP,
    EARNED_INCOME_DEDUCTION_RATE, scenarioA, reportA, max_def, min_def],
   rfl, rfl, rfl, rfl, rfl, rfl, rfl, rfl, rfl, rfl, rfl⟩

/-- C2: whenever calculate returns a report, the eligibility flag is
exactly the conjunction of the two test flags and the positivity of the
benefit; and every downstream field is given by the deduction pipeline
formulas, which do not consult the gross income test, so failing that
test does not short-circuit the computation. -/
theorem eligibility_identity_no_short_circuit (h : SNAPHousehold) (r : Report)
    (hc : calculate h = some r) :
    r.is_eligible = (r.passes_gross_test && r.passes_net_test
      && decide ((0 : ℤ) < r.benefit_amount)) ∧
    r.adjusted_income = adjustedIncome h r.standard_deduction ∧
    r.excess_shelter_deduction = excessShelter h r.standard_deduction ∧
    r.net_income = netIncome h r.standard_deduction ∧
    r.expected_contribution = expectedContribution h r.standard_deduction ∧
    r.benefit_amount = benefitAmount h r.standard_deduction r.max_allotment := by
  obtain ⟨gl, sd, nl, ma, h1, h2, h3, h4, rfl⟩ := calculate_inv h r hc
  exact ⟨rfl, rfl, rfl, rfl, rfl, rfl⟩

/-- Witness for C2 at scenario A. -/
theorem eligibility_identity_no_short_circuit_witness :
    reportA.is_eligible = (reportA.passes_gross_test && reportA.passes_net_test
      && decide ((0 : ℤ) < reportA.benefit_amount)) ∧
    reportA.adjusted_income = adjustedIncome scenarioA reportA.standard_deduction ∧
    reportA.excess_shelter_deduction = excessShelter scenarioA reportA.standard_deduction ∧
    reportA.net_income = netIncome scenarioA reportA.standard_deduction ∧
    reportA.expected_contribution = expectedContribution scenarioA reportA.standard_deduction ∧
    reportA.benefit_amount = benefitAmount scenarioA reportA.standard_deduction reportA.max_allotment :=
  eligibility_identity_no_short_circuit scenarioA reportA
    (by norm_num [calculate, calculateCore, getLimit, STANDARD_DEDUCTIONS, MAX_ALLOTMENTS,
      GROSS_INCOME_LIMITS, NET_INCOME_LIMITS, grossIncome, earnedIncomeDeduction,
      medicalDeduction, adjustedIncome, totalShelterCost, excessShelter, netIncome,
      expectedContribution, benefitAmount, pyround, EXCESS_SHELTER_CAP,
      EARNED_INCOME_DEDUCTION_RATE, scenarioA, reportA, max_def, min_def])

/-- C3 fails on the code: for any size of at least 9, the standard
deduction lookup reaches the extrapolation branch, whose read of the
table at key 8 raises KeyError because STANDARD_DEDUCTIONS stops at
size 6, so calculate does not return a report; sizes 7 and 8 do return
reports. -/
theorem size_nine_lookup_raises :
    calculate scenarioSize9 = none ∧
    getLimit 9 STANDARD_DEDUCTIONS = none ∧
    (calculate scenarioSize7).isSome = true ∧
    (calculate scenarioSize8).isSome = true := by
  have h1 := getLimit_GROSS_INCOME_LIMITS (show (8 : ℤ) < 9 by norm_num)
  have h2 := getLimit_STANDARD_DEDUCTIONS_none (show (8 : ℤ) < 9 by norm_num)
  refine ⟨?_, h2, ?_, ?_⟩
  · simp [calculate, scenarioSize9, h1, h2]
  · norm_num [calculate, calculateCore, getLimit, STANDARD_DEDUCTIONS, MAX_ALLOTMENTS,
      GROSS_INCOME_LIMITS, NET_INCOME_LIMITS, grossIncome, earnedIncomeDeduction,
      medicalDeduction, adjustedIncome, totalShelterCost, excessShelter, netIncome,
      expectedContribution, benefitAmount, pyround, EXCESS_SHELTER_CAP,
      EARNED_INCOME_DEDUCTION_RATE, scenarioSize7, max_def, min_def]
  · norm_num [calculate, calculateCore, getLimit, STANDARD_DEDUCTIONS, MAX_ALLOTMENTS,
      GROSS_INCOME_LIMITS, NET_INCOME_LIMITS, grossIncome, earnedIncomeDeduction,
      medicalDeduction, adjustedIncome, totalShelterCost, excessShelter, netIncome,
      expectedContribution, benefitAmount, pyround, EXCESS_SHELTER_CAP,
      EARNED_INCOME_DEDUCTION_RATE, scenarioSize8, max_def, min_def]

/-- C4 counterexample: for the standard deduction table at size 9 the
lookup returns no value at all (the KeyError path), not the size 8
value plus one per-person increment. -/
theorem std_table_extrapolation_counterexample :
    getLimit 9 STANDARD_DEDUCTIONS = none :=
  getLimit_STANDARD_DEDUCTIONS_none (by norm_num)

/-- C4 (amended): for every size above 8 the max allotment, gross limit
and net limit lookups return the size 8 entry plus (size minus 8)
per-person increments, the increment being the entry at 8 minus the
entry at 7; in particular the max allotment at size 9 is 1976.  The
standard deduction lookup, whose table stops at size 6, instead
returns no value. -/
theorem table_extrapolation_three_tables (s : ℤ) (hs : 8 < s) :
    getLimit s MAX_ALLOTMENTS = some (1756 + ((s - 8 : ℤ) : ℚ) * (1756 - 1536)) ∧
    getLimit s GROSS_INCOME_LIMITS = some (5596 + ((s - 8 : ℤ) : ℚ) * (5596 - 5030)) ∧
    getLimit s NET_INCOME_LIMITS = some (4305 + ((s - 8 : ℤ) : ℚ) * (4305 - 3870)) ∧
    getLimit s STANDARD_DEDUCTIONS = none ∧
    getLimit 9 MAX_ALLOTMENTS = some 1976 := by
  refine ⟨getLimit_MAX_ALLOTMENTS hs, getLimit_GROSS_INCOME_LIMITS hs,
    getLimit_NET_INCOME_LIMITS hs, getLimit_STANDARD_DEDUCTIONS_none hs, ?_⟩
  rw [getLimit_MAX_ALLOTMENTS (show (8 : ℤ) < 9 by norm_num)]
  norm_num

/-- Witness for C4 at size 9. -/
theorem table_extrapolation_three_tables_witness :
    getLimit 9 MAX_ALLOTMENTS = some (1756 + ((9 - 8 : ℤ) : ℚ) * (1756 - 1536)) ∧
    getLimit 9 GROSS_INCOME_LIMITS = some (5596 + ((9 - 8 : ℤ) : ℚ) * (5596 - 5030)) ∧
    getLimit 9 NET_INCOME_LIMITS = some (4305 + ((9 - 8 : ℤ) : ℚ) * (4305 - 3870)) ∧
    getLimit 9 STANDARD_DEDUCTIONS = none ∧
    getLimit 9 MAX_ALLOTMENTS = some 1976 :=
  table_extrapolation_three_tables 9 (by norm_num)

/-- C5 fails on the code: sizes 7 and 8 have no standard deduction
entry, are not above 8, and so fall through to the default of 0; the
reports for sizes 7 and 8 use a standard deduction of 0, neither an
extended table entry nor a value extrapolated from size 6. -/
theorem std_deduction_zero_for_seven_eight :
    getLimit 7 STANDARD_DEDUCTIONS = some 0 ∧
    getLimit 8 STANDARD_DEDUCTIONS = some 0 ∧
    (calculate scenarioSize7).map Report.standard_deduction = some 0 ∧
    (calculate scenarioSize8).map Report.standard_deduction = some 0 := by
  refine ⟨?_, ?_, ?_, ?_⟩ <;>
    norm_num [calculate, calculateCore, getLimit, STANDARD_DEDUCTIONS, MAX_ALLOTMENTS,
      GROSS_INCOME_LIMITS, NET_INCOME_LIMITS, grossIncome, earnedIncomeDeduction,
      medicalDeduction, adjustedIncome, totalShelterCost, excessShelter, netIncome,
      expectedContribution, benefitAmount, pyround, EXCESS_SHELTER_CAP,
      EARNED_INCOME_DEDUCTION_RATE, scenarioSize7, scenarioSize8, max_def, min_def]

/-- C6: in every report, the excess shelter deduction is
max(0, total shelter cost minus half the adjusted income), capped at
624 exactly when the household has no elderly or disabled member; in
particular a non-elderly household never reports more than 624. -/
theorem excess_shelter_formula (h : SNAPHousehold) (r : Report)
    (hc : calculate h = some r) :
    r.excess_shelter_deduction =
      (if h.has_elderly_disabled then
        max 0 (totalShelterCost h - r.adjusted_income / 2)
      else
        min (max 0 (totalShelterCost h - r.adjusted_income / 2)) 624) ∧
    (h.has_elderly_disabled = false → r.excess_shelter_deduction ≤ 624) := by
  obtain ⟨gl, sd, nl, ma, h1, h2, h3, h4, rfl⟩ := calculate_inv h r hc
  simp only [calculateCore]
  constructor
  · simp only [excessShelter, EXCESS_SHELTER_CAP]
    cases hb : h.has_elderly_disabled
    · simp [hb]
    · simp [hb]
  · intro hb
    simp only [excessShelter, EXCESS_SHELTER_CAP, hb]
    simp only [Bool.false_eq_true, not_false_eq_true, if_true]
    exact min_le_right _ _

/-- Witness for C6 at scenario A. -/
theorem excess_shelter_formula_witness :
    (reportA.excess_shelter_deduction =
      if scenarioA.has_elderly_disabled then
        max 0 (totalShelterCost scenarioA - reportA.adjusted_income / 2)
      else
        min (max 0 (totalShelterCost scenarioA - reportA.adjusted_income / 2)) 624) ∧
    (scenarioA.has_elderly_disabled = false → reportA.excess_shelter_deduction ≤ 624) :=
  excess_shelter_formula scenarioA reportA
    (by norm_num [calculate, calculateCore, getLimit, STANDARD_DEDUCTIONS, MAX_ALLOTMENTS,
      GROSS_INCOME_LIMITS, NET_INCOME_LIMITS, grossIncome, earnedIncomeDeduction,
      medicalDeduction, adjustedIncome, totalShelterCost, excessShelter, netIncome,
      expectedContribution, benefitAmount, pyround, EXCESS_SHELTER_CAP,
      EARNED_INCOME_DEDUCTION_RATE, scenarioA, reportA, max_def, min_def])

/-- C7: with every other field fixed, a household with higher earned
income never receives a larger benefit. -/
theorem benefit_antitone_in_earned_income (h : SNAPHousehold) (e e' : ℚ)
    (he : e ≤ e') (r r' : Report)
    (hr : calculate { h with monthly_earned_income := e } = some r)
    (hr' : calculate { h with monthly_earned_income := e' } = some r') :
    r'.benefit_amount ≤ r.benefit_amount := by
  obtain ⟨gl, sd, nl, ma, hgl, hsd, hnl, hma, rfl⟩ := calculate_inv _ _ hr
  obtain ⟨gl', sd', nl', ma', hgl', hsd', hnl', hma', rfl⟩ := calculate_inv _ _ hr'
  have hsize : ({ h with monthly_earned_income := e' } : SNAPHousehold).size
      = ({ h with monthly_earned_income := e } : SNAPHousehold).size := rfl
  rw [hsize, hsd] at hsd'
  rw [hsize, hma] at hma'
  obtain rfl := Option.some.inj hsd'
  obtain rfl := Option.some.inj hma'
  show benefitAmount { h with monthly_earned_income := e' } sd ma
    ≤ benefitAmount { h with monthly_earned_income := e } sd ma
  apply benefitAmount_le_benefitAmount
  apply netIncome_le_netIncome
  · rfl
  · rfl
  · exact adjustedIncome_mono_earned h sd he

/-- Witness for C7: scenario A at earned incomes 2500 and 3000. -/
theorem benefit_antitone_in_earned_income_witness :
    reportA3000.benefit_amount ≤ reportA.benefit_amount :=
  benefit_antitone_in_earned_income scenarioA 2500 3000 (by norm_num) reportA reportA3000
    (by norm_num [calculate, calculateCore, getLimit, STANDARD_DEDUCTIONS, MAX_ALLOTMENTS,
      GROSS_INCOME_LIMITS, NET_INCOME_LIMITS, grossIncome, earnedIncomeDeduction,
      medicalDeduction, adjustedIncome, totalShelterCost, excessShelter, netIncome,
      expectedContribution, benefitAmount, pyround, EXCESS_SHELTER_CAP,
      EARNED_INCOME_DEDUCTION_RATE, scenarioA, reportA, max_def, min_def])
    (by norm_num [calculate, calculateCore, getLimit, STANDARD_DEDUCTIONS, MAX_ALLOTMENTS,
      GROSS_INCOME_LIMITS, NET_INCOME_LIMITS, grossIncome, earnedIncomeDeduction,
      medicalDeduction, adjustedIncome, totalShelterCost, excessShelter, netIncome,
      expectedContribution, benefitAmount, pyround, EXCESS_SHELTER_CAP,
      EARNED_INCOME_DEDUCTION_RATE, scenarioA, reportA3000, max_def, min_def])

/-- C8: two households identical except for the utility expense flag:
the flagged one has an excess shelter deduction and a benefit at least
as large. -/
theorem utility_flag_monotone (h : SNAPHousehold) (rf rt : Report)
    (hf : calculate { h with has_utility_expenses := false } = some rf)
    (ht : calculate { h with has_utility_expenses := true } = some rt) :
    rf.excess_shelter_deduction ≤ rt.excess_shelter_deduction ∧
    rf.benefit_amount ≤ rt.benefit_amount := by
  obtain ⟨gl, sd, nl, ma, hgl, hsd, hnl, hma, rfl⟩ := calculate_inv _ _ hf
  obtain ⟨gl', sd', nl', ma', hgl', hsd', hnl', hma', rfl⟩ := calculate_inv _ _ ht
  have hsize : ({ h with has_utility_expenses := true } : SNAPHousehold).size
      = ({ h with has_utility_expenses := false } : SNAPHousehold).size := rfl
  rw [hsize, hsd] at hsd'
  rw [hsize, hma] at hma'
  obtain rfl := Option.some.inj hsd'
  obtain rfl := Option.some.inj hma'
  have ha : adjustedIncome { h with has_utility_expenses := true } sd
      = adjustedIncome { h with has_utility_expenses := false } sd := rfl
  have hesh : excessShelter { h with has_utility_expenses := false } sd
      ≤ excessShelter { h with has_utility_expenses := true } sd := by
    apply excessShelter_le_excessShelter
    · rfl
    · norm_num [totalShelterCost]
    · exact le_of_eq rfl
  have hnet : netIncome { h with has_utility_expenses := true } sd
      ≤ netIncome { h with has_utility_expenses := false } sd := by
    simp only [netIncome, ha]
    linarith
  exact ⟨hesh, benefitAmount_le_benefitAmount _ _ _ _ _ hnet⟩

/-- Witness for C8 at scenario A. -/
theorem utility_flag_monotone_witness :
    reportA.excess_shelter_deduction ≤ reportAUtility.excess_shelter_deduction ∧
    reportA.benefit_amount ≤ reportAUtility.benefit_amount :=
  utility_flag_monotone scenarioA reportA reportAUtility
    (by norm_num [calculate, calculateCore, getLimit, STANDARD_DEDUCTIONS, MAX_ALLOTMENTS,
      GROSS_INCOME_LIMITS, NET_INCOME_LIMITS, grossIncome, earnedIncomeDeduction,
      medicalDeduction, adjustedIncome, totalShelterCost, excessShelter, netIncome,
      expectedContribution, benefitAmount, pyround, EXCESS_SHELTER_CAP,
      EARNED_INCOME_DEDUCTION_RATE, scenarioA, reportA, max_def, min_def])
    (by norm_num [calculate, calculateCore, getLimit, STANDARD_DEDUCTIONS, MAX_ALLOTMENTS,
      GROSS_INCOME_LIMITS, NET_INCOME_LIMITS, grossIncome, earnedIncomeDeduction,
      medicalDeduction, adjustedIncome, totalShelterCost, excessShelter, netIncome,
      expectedContribution, benefitAmount, pyround, EXCESS_SHELTER_CAP,
      EARNED_INCOME_DEDUCTION_RATE, scenarioA, reportAUtility, max_def, min_def])

/-- C9 counterexample: the dataclass performs no validation: the size 0
household with negative earned income, unearned income and rent is an
ordinary value, and calculate returns a report for it instead of any
construction-time error, carrying the unclamped negative amounts. -/
theorem invalid_household_flows_through :
    calculate invalidHousehold = some invalidReport := by
  norm_num [calculate, calculateCore, getLimit, STANDARD_DEDUCTIONS, MAX_ALLOTMENTS,
    GROSS_INCOME_LIMITS, NET_INCOME_LIMITS, grossIncome, earnedIncomeDeduction,
    medicalDeduction, adjustedIncome, totalShelterCost, excessShelter, netIncome,
    expectedContribution, benefitAmount, pyround, EXCESS_SHELTER_CAP,
    EARNED_INCOME_DEDUCTION_RATE, invalidHousehold, invalidReport, max_def, min_def]

/-- C9 (amended): construction never validates: any size below 1 with a
negative earned income still yields an ordinary household value, and
calculate returns a report whose gross income is the raw sum and whose
earned income deduction is a fifth of the negative income, with no
clamping anywhere. -/
theorem construction_never_validates (size : ℤ) (e u rent : ℚ)
    (he : e < 0) (hs : size < 1) :
    ∃ r, calculate ⟨size, e, u, rent, 0, 0, 0, false, false, "CA"⟩ = some r ∧
      r.gross_income = e + u ∧
      r.earned_income_deduction = e * 0.20 := by
  have hg := getLimit_small hs GROSS_INCOME_LIMITS (GROSS_INCOME_LIMITS_none_small hs)
  have hsd := getLimit_small hs STANDARD_DEDUCTIONS (STANDARD_DEDUCTIONS_none_small hs)
  have hnl := getLimit_small hs NET_INCOME_LIMITS (NET_INCOME_LIMITS_none_small hs)
  have hma := getLimit_small hs MAX_ALLOTMENTS (MAX_ALLOTMENTS_none_small hs)
  refine ⟨calculateCore ⟨size, e, u, rent, 0, 0, 0, false, false, "CA"⟩ 0 0 0 0, ?_, rfl, rfl⟩
  simp [calculate, hg, hsd, hnl, hma]

/-- Witness for C9 (amended) at the concrete invalid household. -/
theorem construction_never_validates_witness :
    ∃ r, calculate ⟨0, -100, -5, -50, 0, 0, 0, false, false, "CA"⟩ = some r ∧
      r.gross_income = -100 + -5 ∧
      r.earned_income_deduction = -100 * 0.20 :=
  construction_never_validates 0 (-100) (-5) (-50) (by norm_num) (by norm_num)

/-- C10: validate_single runs the screener on the derived household:
when TANF is included and positive, that household equals the input
with unearned income raised by the monthly equivalent (all other
fields untouched, the input record itself being unchanged by the
copy); when the TANF amount is not positive the screener household is
the input itself. -/
theorem validate_single_derived_household (household : SNAPHousehold)
    (pe : PEResult) (include_tanf : Bool) :
    (include_tanf = true → 0 < pe.tanf_benefit →
      householdForScreener household include_tanf pe.tanf_benefit =
        { household with monthly_unearned_income :=
            household.monthly_unearned_income + pe.tanf_benefit / 12 }) ∧
    (pe.tanf_benefit ≤ 0 →
      householdForScreener household include_tanf pe.tanf_benefit = household) ∧
    (validate_single household pe include_tanf).map Comparison.screener_details =
      calculate (householdForScreener household include_tanf pe.tanf_benefit) := by
  refine ⟨?_, ?_, ?_⟩
  · intro hit hpos
    unfold householdForScreener
    rw [if_pos ⟨hit, hpos⟩]
  · intro hle
    have hn : ¬ (include_tanf = true ∧ pe.tanf_benefit > 0) :=
      fun hcond => absurd hcond.2 (not_lt.mpr hle)
    unfold householdForScreener
    rw [if_neg hn]
  · unfold validate_single
    cases hc : calculate (householdForScreener household include_tanf pe.tanf_benefit) with
    | none => simp [hc]
    | some sr => simp [hc]

/-- Witness for C10: scenario A with an annual TANF amount of 120. -/
theorem validate_single_derived_household_witness :
    householdForScreener scenarioA true 120 =
      { scenarioA with monthly_unearned_income :=
          scenarioA.monthly_unearned_income + 120 / 12 } ∧
    (validate_single scenarioA ⟨120, 300⟩ true).map Comparison.screener_details =
      calculate (householdForScreener scenarioA true 120) :=
  ⟨(validate_single_derived_household scenarioA ⟨120, 300⟩ true).1 rfl (by norm_num),
   (validate_single_derived_household scenarioA ⟨120, 300⟩ true).2.2⟩

end SNAPScreener
